import Mathlib

/-!
Shallow embedding of the gemini-mcp repository core:
the brainstorm session orchestrator (src/tools/brainstorm.ts) and the
Gemini connection manager (gemini-client.ts), together with theorems
checking the natural-language specification against this embedding.
-/

namespace GeminiMcp

/-! ## Data model -/

/-- One prior round of the brainstorming session, as carried in the
caller-supplied `history` parameter (interface BrainstormRound). -/
structure BrainstormRound where
  round : Nat
  claudeInput : String
  geminiResponse : String
deriving Repr, DecidableEq

/-- The structured result a tool handler returns to the MCP host:
a text payload plus an error flag (`isError`, absent = false in the source). -/
structure ToolResult where
  text : String
  isError : Bool
deriving Repr, DecidableEq

/-- Behaviour of the upstream model (generateWithGeminiPro): given the index
of the call (how many upstream calls were made before) and the prompt, it
either returns text (`Except.ok`) or throws (`Except.error` carrying the
exception message). -/
def Oracle : Type := Nat → String → Except String String

/-! ## String helpers mirroring the JavaScript operations used -/

/-- Embedding of JavaScript `s.substring(0, n)`: the first `n` characters
of `s` (all of `s` when it is shorter). -/
def jsTake (s : String) (n : Nat) : String := String.mk (s.data.take n)

/-- Embedding of JavaScript array joining with a separator string. -/
def joinSep (sep : String) : List String → String
  | [] => ""
  | [s] => s
  | s :: rest => s ++ sep ++ joinSep sep rest

/-! ## Prompt construction (Session Orchestrator) -/

/-- One entry of the rendered transcript: the template
`\nRound N:\n- Claude: <first 500 chars>...\n- Gemini: <first 500 chars>...\n`
(brainstorm.ts lines 77-81 and 144-148; both occurrences are identical). -/
def renderEntry (e : BrainstormRound) : String :=
  "\nRound " ++ toString e.round ++ ":\n- Claude: " ++ jsTake e.claudeInput 500
    ++ "..." ++ "\n- Gemini: " ++ jsTake e.geminiResponse 500 ++ "..." ++ "\n"

/-- `historyText`: the mapped entries joined with `"\n"`. -/
def historyText (history : List BrainstormRound) : String :=
  joinSep "\n" (history.map renderEntry)

/-- The round-1 `initialPrompt` template literal (brainstorm.ts lines 39-54). -/
def initialPrompt (prompt : String) : String :=
  "\nYou are participating in a collaborative brainstorming session with Claude, another AI assistant.\nTogether, you will create a plan to address the following request:\n\n---\n"
  ++ prompt ++
  "\n---\n\nPlease provide your initial thoughts, considering:\n1. How you would approach this problem\n2. What information or resources you might need\n3. Any challenges you anticipate\n4. The steps you would take to implement a solution\n\nRemember, this is the first round of a collaborative discussion, so focus on sharing your initial perspective rather than a complete solution.\n"

/-- The round>1 `collaborationPrompt` template literal (brainstorm.ts lines 83-103). -/
def collaborationPrompt (prompt : String) (round : Nat) (claudeInput : String)
    (history : List BrainstormRound) : String :=
  "\nYou are in round " ++ toString round ++ " of a collaborative brainstorming session about this request:\n\n---\n"
  ++ prompt ++
  "\n---\n\n"
  ++ (if 0 < history.length then
        "Here\x27s a summary of the previous rounds:\n" ++ historyText history
      else "") ++
  "\n\nClaude\x27s latest perspective:\n"
  ++ claudeInput ++
  "\n\nBased on Claude\x27s perspective"
  ++ (if 0 < history.length then " and the previous discussion" else "") ++
  ", please:\n1. Identify areas where you agree with Claude\n2. Note any valuable insights from Claude that you hadn\x27t considered\n3. Respectfully point out any potential issues with Claude\x27s approach\n4. Build upon both your ideas to refine the approach\n5. Suggest concrete next steps or details to consider\n\nRemember, this is a collaborative process to develop the best possible solution.\n"

/-- The `synthesisPrompt` template literal (brainstorm.ts lines 150-168). -/
def synthesisPrompt (prompt : String) (history : List BrainstormRound) : String :=
  "\nYou\x27ve participated in a collaborative brainstorming session with Claude about this request:\n\n---\n"
  ++ prompt ++
  "\n---\n\nHere\x27s the complete conversation history:\n"
  ++ historyText history ++
  "\n\nBased on this collaborative discussion, please provide:\n1. A comprehensive synthesis of the best ideas from both assistants\n2. A clear, step-by-step plan to address the user\x27s request\n3. Required resources, tools, or information needed\n4. Any potential challenges and how to address them\n5. A conclusion summarizing the unified approach\n\nPresent this as a unified final plan that represents the best collaborative thinking of both assistants.\n"

/-! ## Tool handlers

Each handler is modelled as a function of the upstream oracle, the number of
upstream calls made so far (the only process state the handler touches, via
the shared model handle), and its arguments. It returns the structured
result, the list of prompts sent upstream during this invocation (in order),
and the updated call counter. A `throw` inside the `try` is modelled by the
oracle returning `Except.error`; the `catch` block turns it into the
structured `Error: <message>` result with `isError = true`. -/

/-- JavaScript truthiness test `!claudeInput` on `string | undefined`:
true when absent or the empty string. -/
def isFalsyInput : Option String → Bool
  | none => true
  | some s => s = ""

/-- Embedding of the `gemini-brainstorm` handler (brainstorm.ts lines 33-126). -/
def runRound (oracle : Oracle) (start : Nat) (prompt : String) (round : Nat)
    (claudeInput : Option String) (history : List BrainstormRound) :
    ToolResult × List String × Nat :=
  if round = 1 then
    match oracle start (initialPrompt prompt) with
    | Except.ok resp => (⟨resp, false⟩, [initialPrompt prompt], start + 1)
    | Except.error msg => (⟨"Error: " ++ msg, true⟩, [initialPrompt prompt], start + 1)
  else
    if isFalsyInput claudeInput then
      (⟨"Error: Claude\x27s input is required for rounds after the first one", true⟩,
        [], start)
    else
      let ci := claudeInput.getD ""
      match oracle start (collaborationPrompt prompt round ci history) with
      | Except.ok resp =>
          (⟨resp, false⟩, [collaborationPrompt prompt round ci history], start + 1)
      | Except.error msg =>
          (⟨"Error: " ++ msg, true⟩, [collaborationPrompt prompt round ci history], start + 1)

/-- Embedding of the `gemini-brainstorm-synthesis` handler
(brainstorm.ts lines 140-190). Note: the source performs no emptiness
check on `history`; it renders the (possibly empty) transcript and calls
upstream unconditionally. -/
def runSynthesis (oracle : Oracle) (start : Nat) (prompt : String)
    (history : List BrainstormRound) : ToolResult × List String × Nat :=
  match oracle start (synthesisPrompt prompt history) with
  | Except.ok resp => (⟨resp, false⟩, [synthesisPrompt prompt history], start + 1)
  | Except.error msg => (⟨"Error: " ++ msg, true⟩, [synthesisPrompt prompt history], start + 1)

/-! ## Connection Manager (gemini-client.ts, retry-enabled variant)

`initGeminiClient` checks the API key, constructs the model handles, then
runs a validation loop: up to 3 attempts, each a `Promise.race` between the
validation call and a 10-second timeout, with a 2-second pause after a
failed attempt that still has retries left. -/

/-- How one settled promise resolves: fulfilled with a value of some JS
truthiness, or rejected with an error message. -/
inductive Settle where
  | fulfilled (truthy : Bool)
  | rejected (msg : String)
deriving Repr, DecidableEq

/-- Behaviour of one validation call (`geminiFlashModel.generateContent`):
`none` if the promise never settles, otherwise the settle time in
milliseconds and how it settles. -/
def ConnBehavior : Type := Option (Nat × Settle)

/-- The individual-attempt timeout in milliseconds (gemini-client.ts line 48). -/
def connectTimeoutMs : Nat := 10000

/-- Embedding of `Promise.race([connectionPromise, timeoutPromise])` where
the timeout promise rejects with "Connection timeout" at `timeoutMs`:
whichever settles first determines the race's settle time and outcome; the
loser's eventual result is discarded. -/
def promiseRace (conn : ConnBehavior) (timeoutMs : Nat) : Nat × Settle :=
  match conn with
  | none => (timeoutMs, Settle.rejected "Connection timeout")
  | some (t, s) =>
      if t < timeoutMs then (t, s) else (timeoutMs, Settle.rejected "Connection timeout")

/-- Outcome of one attempt's `try` body after the race: `none` means the
attempt succeeded (`connected = true`); `some msg` means an exception with
message `msg` reached the `catch` (either the race rejected, or it fulfilled
falsy and the `if (!result) throw` fired). -/
def attemptError : Nat × Settle → Option String
  | (_, Settle.fulfilled true) => none
  | (_, Settle.fulfilled false) => some "Failed to connect to Gemini API: empty response"
  | (_, Settle.rejected msg) => some msg

/-- One observable event of the initialization loop. -/
inductive InitEvent where
  | validateCall
  | sleep (ms : Nat)
deriving Repr, DecidableEq

/-- `maxAttempts` (gemini-client.ts line 39). -/
def maxAttempts : Nat := 3

/-- The `while (!connected && attempts < maxAttempts)` loop of
`initGeminiClient` (gemini-client.ts lines 41-74). `validator i` is the
raced outcome of the validation call on attempt number `i` (1-based);
`attempts` is the counter value at the loop head. Returns the overall
outcome and the trace of validation calls and sleeps. -/
def initLoop (validator : Nat → Nat × Settle) (attempts : Nat)
    (trace : List InitEvent) : Except String Unit × List InitEvent :=
  if _h : attempts < maxAttempts then
    let a := attempts + 1
    let tr := trace ++ [InitEvent.validateCall]
    match attemptError (validator a) with
    | none => (Except.ok (), tr)
    | some msg =>
        if maxAttempts ≤ a then
          (Except.error ("Failed to connect to Gemini API after "
            ++ toString maxAttempts ++ " attempts: " ++ msg), tr)
        else
          initLoop validator a (tr ++ [InitEvent.sleep 2000])
  else
    (Except.ok (), trace)
termination_by maxAttempts - attempts
decreasing_by simp only [maxAttempts] at *; omega

/-- Embedding of `initGeminiClient` (gemini-client.ts lines 18-79):
fail fast when the API key is absent, otherwise run the validation loop. -/
def initGeminiClient (apiKey : Option String) (validator : Nat → Nat × Settle) :
    Except String Unit × List InitEvent :=
  match apiKey with
  | none => (Except.error "GEMINI_API_KEY environment variable is required", [])
  | some _ => initLoop validator 0 []

/-! ## Chat-based generation (generateWithChat, gemini-client.ts lines 120-155)

Modelled with a trace of the contents handed to `chat.sendMessage`, in order;
`oracle i` is the response text of the `i`-th send (0-based). The handler
indexes `messages[messages.length - 1]`, so an empty list makes the property
access throw — modelled as `none`. -/

/-- Role of one chat message. -/
inductive Role where
  | user
  | model
deriving Repr, DecidableEq

/-- One entry of the `messages` argument of `generateWithChat`. -/
structure ChatMessage where
  role : Role
  content : String
deriving Repr, DecidableEq

/-- The contents sent by the `for (const message of messages)` loop:
every message whose role is "user", in order. -/
def loopSends (messages : List ChatMessage) : List String :=
  (messages.filter (fun m => m.role = Role.user)).map (fun m => m.content)

/-- Embedding of `generateWithChat`: returns the response text and the trace
of contents passed to `chat.sendMessage`, or `none` when `messages` is empty
(reading `.role` of `undefined` throws). -/
def generateWithChat (oracle : Nat → String) (messages : List ChatMessage) :
    Option (String × List String) :=
  match messages.getLast? with
  | none => none
  | some lastMessage =>
      let sends := loopSends messages
      if lastMessage.role = Role.user then
        let allSends := sends ++ [lastMessage.content]
        some (oracle (allSends.length - 1), allSends)
      else
        some (lastMessage.content, sends)

/-! ## Substring containment -/

/-- `big` contains `small` as a contiguous substring. -/
def ContainsStr (big small : String) : Prop :=
  ∃ u v, big = u ++ small ++ v

theorem containsStr_self (s : String) : ContainsStr s s :=
  ⟨"", "", by simp [String.empty_append, String.append_empty]⟩

theorem ContainsStr.appendL {b s : String} (a : String) (h : ContainsStr b s) :
    ContainsStr (a ++ b) s := by
  obtain ⟨u, v, hb⟩ := h
  exact ⟨a ++ u, v, by rw [hb]; simp [String.append_assoc]⟩

theorem ContainsStr.appendR {b s : String} (c : String) (h : ContainsStr b s) :
    ContainsStr (b ++ c) s := by
  obtain ⟨u, v, hb⟩ := h
  exact ⟨u, v ++ c, by rw [hb]; simp [String.append_assoc]⟩

theorem ContainsStr.ofContains {big b s : String} (h2 : ContainsStr big b)
    (h1 : ContainsStr b s) : ContainsStr big s := by
  obtain ⟨u, v, hbig⟩ := h2
  obtain ⟨u1, v1, hb⟩ := h1
  refine ⟨u ++ u1, v1 ++ v, ?_⟩
  rw [hbig, hb]
  simp [String.append_assoc]

/-- Everything in the joined list is contained in the join. -/
theorem joinSep_contains (sep : String) {l : List String} {s : String} (h : s ∈ l) :
    ContainsStr (joinSep sep l) s := by
  induction l with
  | nil => simp at h
  | cons x rest ih =>
    rcases List.mem_cons.mp h with hx | hmem
    · subst hx
      cases rest with
      | nil => exact containsStr_self s
      | cons y t =>
        exact ((containsStr_self s).appendR sep).appendR (joinSep sep (y :: t))
    · cases rest with
      | nil => simp at hmem
      | cons y t =>
        exact (ih hmem).appendL (x ++ sep)

/-- Every rendered entry of the history is contained in `historyText`. -/
theorem historyText_contains {history : List BrainstormRound} {e : BrainstormRound}
    (h : e ∈ history) : ContainsStr (historyText history) (renderEntry e) :=
  joinSep_contains "\n" (List.mem_map_of_mem renderEntry h)

/-! ## Truncation helper lemmas -/

theorem jsTake_length_le (s : String) (n : Nat) : (jsTake s n).length ≤ n := by
  have h : (jsTake s n).length = (s.data.take n).length := rfl
  rw [h, List.length_take]
  omega

theorem jsTake_data_prefix (s : String) (n : Nat) : (jsTake s n).data <+: s.data :=
  List.take_prefix n s.data

theorem jsTake_of_length_le {s : String} {n : Nat} (h : s.length ≤ n) :
    jsTake s n = s := by
  cases s with
  | mk data => exact congrArg String.mk (List.take_of_length_le h)

theorem renderEntry_contains_claude (e : BrainstormRound) :
    ContainsStr (renderEntry e) (jsTake e.claudeInput 500 ++ "...") := by
  refine ⟨"\nRound " ++ toString e.round ++ ":\n- Claude: ",
    "\n- Gemini: " ++ jsTake e.geminiResponse 500 ++ "..." ++ "\n", ?_⟩
  simp only [renderEntry, String.append_assoc]

theorem renderEntry_contains_gemini (e : BrainstormRound) :
    ContainsStr (renderEntry e) (jsTake e.geminiResponse 500 ++ "...") := by
  refine ⟨"\nRound " ++ toString e.round ++ ":\n- Claude: "
    ++ jsTake e.claudeInput 500 ++ "..." ++ "\n- Gemini: ", "\n", ?_⟩
  simp only [renderEntry, String.append_assoc]

theorem collaborationPrompt_contains_historyText (p ci : String) (r : Nat)
    {hist : List BrainstormRound} (hpos : 0 < hist.length) :
    ContainsStr (collaborationPrompt p r ci hist) (historyText hist) := by
  refine ⟨"\nYou are in round " ++ toString r
    ++ " of a collaborative brainstorming session about this request:\n\n---\n"
    ++ p ++ "\n---\n\n" ++ "Here\x27s a summary of the previous rounds:\n",
    "\n\nClaude\x27s latest perspective:\n" ++ ci
    ++ "\n\nBased on Claude\x27s perspective" ++ " and the previous discussion"
    ++ ", please:\n1. Identify areas where you agree with Claude\n2. Note any valuable insights from Claude that you hadn\x27t considered\n3. Respectfully point out any potential issues with Claude\x27s approach\n4. Build upon both your ideas to refine the approach\n5. Suggest concrete next steps or details to consider\n\nRemember, this is a collaborative process to develop the best possible solution.\n", ?_⟩
  unfold collaborationPrompt
  rw [if_pos hpos, if_pos hpos]
  simp only [String.append_assoc]

theorem synthesisPrompt_contains_historyText (p : String) (hist : List BrainstormRound) :
    ContainsStr (synthesisPrompt p hist) (historyText hist) := by
  refine ⟨"\nYou\x27ve participated in a collaborative brainstorming session with Claude about this request:\n\n---\n"
    ++ p ++ "\n---\n\nHere\x27s the complete conversation history:\n",
    "\n\nBased on this collaborative discussion, please provide:\n1. A comprehensive synthesis of the best ideas from both assistants\n2. A clear, step-by-step plan to address the user\x27s request\n3. Required resources, tools, or information needed\n4. Any potential challenges and how to address them\n5. A conclusion summarizing the unified approach\n\nPresent this as a unified final plan that represents the best collaborative thinking of both assistants.\n", ?_⟩
  simp only [synthesisPrompt, String.append_assoc]

/-! ## Claim theorems -/

/-- C1, counterexample: the claim "if the caller-supplied history is the empty
sequence, the synthesis call returns a structured input error and issues no
upstream model call" is false on the code: with an empty history and a stub
upstream returning "STUB", the handler issues one upstream call (prompt list
of length 1) and returns a non-error result. -/
theorem c1_synthesis_empty_history_counterexample :
    (runSynthesis (fun _ _ => Except.ok "STUB") 0 "p" []).1.isError = false ∧
    (runSynthesis (fun _ _ => Except.ok "STUB") 0 "p" []).2.1.length = 1 := by
  constructor <;> rfl

/-- C1, amended: the synthesis operation issues exactly one upstream model
call for every caller-supplied history, including the empty one; no
empty-history input error exists in the handler. -/
theorem c1_synthesis_always_one_upstream_call (oracle : Oracle) (start : Nat)
    (p : String) (hist : List BrainstormRound) :
    (runSynthesis oracle start p hist).2.1 = [synthesisPrompt p hist] := by
  unfold runSynthesis
  cases oracle start (synthesisPrompt p hist) <;> rfl

/-- C3: for every history entry, the rendered transcript contains the first
at-most-500 characters of `claudeInput` followed by the elision marker
"...", and independently the first at-most-500 characters of
`geminiResponse` followed by "..."; the truncations are prefixes of the
original fields of length ≤ 500; and the rendered entry appears in both the
round>1 collaboration prompt and the synthesis prompt. -/
theorem c3_truncated_transcript (e : BrainstormRound) (hist : List BrainstormRound)
    (p ci : String) (r : Nat) (he : e ∈ hist) :
    ContainsStr (renderEntry e) (jsTake e.claudeInput 500 ++ "...") ∧
    ContainsStr (renderEntry e) (jsTake e.geminiResponse 500 ++ "...") ∧
    (jsTake e.claudeInput 500).length ≤ 500 ∧
    (jsTake e.geminiResponse 500).length ≤ 500 ∧
    (jsTake e.claudeInput 500).data <+: e.claudeInput.data ∧
    (jsTake e.geminiResponse 500).data <+: e.geminiResponse.data ∧
    ContainsStr (collaborationPrompt p r ci hist) (jsTake e.claudeInput 500 ++ "...") ∧
    ContainsStr (collaborationPrompt p r ci hist) (jsTake e.geminiResponse 500 ++ "...") ∧
    ContainsStr (synthesisPrompt p hist) (jsTake e.claudeInput 500 ++ "...") ∧
    ContainsStr (synthesisPrompt p hist) (jsTake e.geminiResponse 500 ++ "...") := by
  have hpos : 0 < hist.length := List.length_pos_of_mem he
  have hcol := (collaborationPrompt_contains_historyText p ci r hpos).ofContains
    (historyText_contains he)
  have hsyn := (synthesisPrompt_contains_historyText p hist).ofContains
    (historyText_contains he)
  exact ⟨renderEntry_contains_claude e, renderEntry_contains_gemini e,
    jsTake_length_le _ _, jsTake_length_le _ _,
    jsTake_data_prefix _ _, jsTake_data_prefix _ _,
    hcol.ofContains (renderEntry_contains_claude e),
    hcol.ofContains (renderEntry_contains_gemini e),
    hsyn.ofContains (renderEntry_contains_claude e),
    hsyn.ofContains (renderEntry_contains_gemini e)⟩

/-- C3 witness at a concrete entry and history. -/
theorem c3_truncated_transcript_witness :
    (⟨1, "X", "A"⟩ : BrainstormRound) ∈ [(⟨1, "X", "A"⟩ : BrainstormRound)] ∧
    (ContainsStr (renderEntry ⟨1, "X", "A"⟩) (jsTake "X" 500 ++ "...") ∧
     ContainsStr (renderEntry ⟨1, "X", "A"⟩) (jsTake "A" 500 ++ "...") ∧
     (jsTake "X" 500).length ≤ 500 ∧
     (jsTake "A" 500).length ≤ 500 ∧
     (jsTake "X" 500).data <+: ("X" : String).data ∧
     (jsTake "A" 500).data <+: ("A" : String).data ∧
     ContainsStr (collaborationPrompt "p" 2 "Y" [⟨1, "X", "A"⟩]) (jsTake "X" 500 ++ "...") ∧
     ContainsStr (collaborationPrompt "p" 2 "Y" [⟨1, "X", "A"⟩]) (jsTake "A" 500 ++ "...") ∧
     ContainsStr (synthesisPrompt "p" [⟨1, "X", "A"⟩]) (jsTake "X" 500 ++ "...") ∧
     ContainsStr (synthesisPrompt "p" [⟨1, "X", "A"⟩]) (jsTake "A" 500 ++ "...")) :=
  ⟨List.mem_singleton.mpr rfl,
   c3_truncated_transcript ⟨1, "X", "A"⟩ [⟨1, "X", "A"⟩] "p" "Y" 2
     (List.mem_singleton.mpr rfl)⟩

/-- C9: the elision marker "..." is appended unconditionally: an entry whose
`claudeInput` (resp. `geminiResponse`) is at most 500 characters long is
rendered in full and is still followed by "...". -/
theorem c9_elision_marker_unconditional (e : BrainstormRound)
    (hc : e.claudeInput.length ≤ 500) (hg : e.geminiResponse.length ≤ 500) :
    ContainsStr (renderEntry e) (e.claudeInput ++ "...") ∧
    ContainsStr (renderEntry e) (e.geminiResponse ++ "...") := by
  constructor
  · have h := renderEntry_contains_claude e
    rwa [jsTake_of_length_le hc] at h
  · have h := renderEntry_contains_gemini e
    rwa [jsTake_of_length_le hg] at h

/-- C9 witness at a concrete short entry. -/
theorem c9_elision_marker_unconditional_witness :
    (("X" : String).length ≤ 500 ∧ ("A" : String).length ≤ 500) ∧
    (ContainsStr (renderEntry ⟨1, "X", "A"⟩) ("X" ++ "...") ∧
     ContainsStr (renderEntry ⟨1, "X", "A"⟩) ("A" ++ "...")) :=
  ⟨⟨by decide, by decide⟩,
   c9_elision_marker_unconditional ⟨1, "X", "A"⟩ (by decide) (by decide)⟩

/-- C4: for every round number greater than 1, if `claudeInput` is absent
the brainstorm handler returns the structured MissingInput error (flagged
`isError = true`, not thrown) and sends no prompt upstream. -/
theorem c4_missing_input_round_gt_one (oracle : Oracle) (start : Nat)
    (p : String) (r : Nat) (hist : List BrainstormRound) (hr : 1 < r) :
    runRound oracle start p r none hist =
      (⟨"Error: Claude\x27s input is required for rounds after the first one", true⟩,
        [], start) := by
  unfold runRound
  rw [if_neg (by omega)]
  rfl

/-- C4 witness at round 2. -/
theorem c4_missing_input_round_gt_one_witness :
    1 < 2 ∧
    runRound (fun _ _ => Except.ok "STUB") 0 "p" 2 none [] =
      (⟨"Error: Claude\x27s input is required for rounds after the first one", true⟩,
        [], 0) :=
  ⟨by omega, c4_missing_input_round_gt_one (fun _ _ => Except.ok "STUB") 0 "p" 2 [] (by omega)⟩

/-- The round-1 prompt contains the literal problem text. -/
theorem initialPrompt_contains_problem (p : String) :
    ContainsStr (initialPrompt p) p := by
  refine ⟨"\nYou are participating in a collaborative brainstorming session with Claude, another AI assistant.\nTogether, you will create a plan to address the following request:\n\n---\n",
    "\n---\n\nPlease provide your initial thoughts, considering:\n1. How you would approach this problem\n2. What information or resources you might need\n3. Any challenges you anticipate\n4. The steps you would take to implement a solution\n\nRemember, this is the first round of a collaborative discussion, so focus on sharing your initial perspective rather than a complete solution.\n", ?_⟩
  simp only [initialPrompt, String.append_assoc]

/-- C6: a round-1 brainstorm call issues exactly one upstream call, whose
prompt is `initialPrompt p` — a function of the problem text alone,
containing it literally and independent of the caller input and history
(hence no transcript section) — and returns the model text verbatim with no
error flag. -/
theorem c6_round_one_shape (oracle : Oracle) (start : Nat) (p : String)
    (ci : Option String) (hist : List BrainstormRound) (resp : String)
    (hok : oracle start (initialPrompt p) = Except.ok resp) :
    runRound oracle start p 1 ci hist = (⟨resp, false⟩, [initialPrompt p], start + 1) ∧
    ContainsStr (initialPrompt p) p ∧
    (∀ ci' hist', runRound oracle start p 1 ci' hist' = runRound oracle start p 1 ci hist) := by
  refine ⟨?_, initialPrompt_contains_problem p, ?_⟩
  · unfold runRound
    rw [if_pos rfl, hok]
  · intro ci' hist'
    unfold runRound
    rw [if_pos rfl, if_pos rfl]

/-- C6 witness with a stub upstream. -/
theorem c6_round_one_shape_witness :
    (fun (_ : Nat) (_ : String) => Except.ok (ε := String) "A") 0 (initialPrompt "Build a todo app") = Except.ok "A" ∧
    (runRound (fun _ _ => Except.ok "A") 0 "Build a todo app" 1 none [] =
      (⟨"A", false⟩, [initialPrompt "Build a todo app"], 1) ∧
     ContainsStr (initialPrompt "Build a todo app") "Build a todo app" ∧
     (∀ ci' hist', runRound (fun _ _ => Except.ok "A") 0 "Build a todo app" 1 ci' hist' =
        runRound (fun _ _ => Except.ok "A") 0 "Build a todo app" 1 none [])) :=
  ⟨rfl, c6_round_one_shape (fun _ _ => Except.ok "A") 0 "Build a todo app" none [] "A" rfl⟩

/-- C7: any upstream failure (exception message `msg`) during a round-1
call, a round>1 call, or a synthesis call is returned as a structured
payload `"Error: " ++ msg` with the error flag set — the handler is a total
function, so the exception never escapes. -/
theorem c7_upstream_failure_structured (oracle : Oracle) (start : Nat)
    (p ci msg : String) (r : Nat) (hist : List BrainstormRound) :
    (oracle start (initialPrompt p) = Except.error msg →
      (runRound oracle start p 1 (some ci) hist).1 = ⟨"Error: " ++ msg, true⟩) ∧
    (r ≠ 1 → ci ≠ "" → oracle start (collaborationPrompt p r ci hist) = Except.error msg →
      (runRound oracle start p r (some ci) hist).1 = ⟨"Error: " ++ msg, true⟩) ∧
    (oracle start (synthesisPrompt p hist) = Except.error msg →
      (runSynthesis oracle start p hist).1 = ⟨"Error: " ++ msg, true⟩) := by
  refine ⟨?_, ?_, ?_⟩
  · intro herr
    unfold runRound
    rw [if_pos rfl, herr]
  · intro hr hci herr
    have hfi : isFalsyInput (some ci) = false := by
      simp [isFalsyInput, hci]
    unfold runRound
    rw [if_neg hr]
    simp only [hfi, Bool.false_eq_true, if_false, Option.getD_some]
    rw [herr]
  · intro herr
    unfold runSynthesis
    rw [herr]

/-- C7 witness with a stub upstream that always throws "boom". -/
theorem c7_upstream_failure_structured_witness :
    ((fun (_ : Nat) (_ : String) => Except.error (α := String) "boom") 0 (initialPrompt "p") = Except.error "boom" →
      (runRound (fun _ _ => Except.error "boom") 0 "p" 1 (some "Y") []).1 = ⟨"Error: " ++ "boom", true⟩) ∧
    (runRound (fun _ _ => Except.error "boom") 0 "p" 2 (some "Y") []).1 = ⟨"Error: " ++ "boom", true⟩ ∧
    (runSynthesis (fun _ _ => Except.error "boom") 0 "p" []).1 = ⟨"Error: " ++ "boom", true⟩ := by
  have h := c7_upstream_failure_structured (fun _ _ => Except.error "boom") 0 "p" "Y" "boom" 2 []
  exact ⟨h.1, h.2.1 (by omega) (by decide) rfl, h.2.2 rfl⟩

/-- C8: the brainstorm handler is deterministic and stateless: against a
stub upstream returning the fixed string `s`, two successive calls with
identical arguments (the second starting from the call counter the first
left behind) produce identical results and identical prompt traces. -/
theorem c8_idempotent_rendering (s p : String) (start r : Nat)
    (ci : Option String) (hist : List BrainstormRound) :
    (runRound (fun _ _ => Except.ok s)
        ((runRound (fun _ _ => Except.ok s) start p r ci hist).2.2) p r ci hist).1 =
      (runRound (fun _ _ => Except.ok s) start p r ci hist).1 ∧
    (runRound (fun _ _ => Except.ok s)
        ((runRound (fun _ _ => Except.ok s) start p r ci hist).2.2) p r ci hist).2.1 =
      (runRound (fun _ _ => Except.ok s) start p r ci hist).2.1 := by
  by_cases hr : r = 1
  · subst hr
    unfold runRound
    simp only [if_pos rfl]
    exact ⟨rfl, rfl⟩
  · by_cases hf : isFalsyInput ci
    · unfold runRound
      simp only [if_neg hr, if_pos hf]
      exact ⟨trivial, trivial⟩
    · unfold runRound
      simp only [if_neg hr, if_neg hf]
      exact ⟨trivial, trivial⟩

/-! ## Init-loop step lemmas -/

theorem initLoop_succeeds {validator : Nat → Nat × Settle} {attempts : Nat}
    (trace : List InitEvent) (h : attempts < maxAttempts)
    (hok : attemptError (validator (attempts + 1)) = none) :
    initLoop validator attempts trace = (Except.ok (), trace ++ [InitEvent.validateCall]) := by
  rw [initLoop]
  rw [dif_pos h]
  simp only [hok]

theorem initLoop_fail_retry {validator : Nat → Nat × Settle} {attempts : Nat}
    (trace : List InitEvent) (h : attempts + 1 < maxAttempts) {msg : String}
    (hfail : attemptError (validator (attempts + 1)) = some msg) :
    initLoop validator attempts trace =
      initLoop validator (attempts + 1)
        (trace ++ [InitEvent.validateCall] ++ [InitEvent.sleep 2000]) := by
  rw [initLoop]
  rw [dif_pos (by omega)]
  simp only [hfail]
  rw [if_neg (by omega)]

theorem initLoop_fail_exhaust {validator : Nat → Nat × Settle} {attempts : Nat}
    (trace : List InitEvent) (h : attempts + 1 = maxAttempts) {msg : String}
    (hfail : attemptError (validator (attempts + 1)) = some msg) :
    initLoop validator attempts trace =
      (Except.error ("Failed to connect to Gemini API after "
        ++ toString maxAttempts ++ " attempts: " ++ msg),
       trace ++ [InitEvent.validateCall]) := by
  rw [initLoop]
  rw [dif_pos (by omega)]
  simp only [hfail]
  rw [if_pos (by omega)]

/-- C2: the initialization retry bound. With the API key present: a
validator failing `N < 3` times then succeeding makes `initGeminiClient`
succeed after exactly `N + 1` validation calls, each failure followed by the
2000 ms pause; a validator failing on all of attempts 1, 2, 3 makes it fail
after exactly 3 validation calls with the exhaustion error embedding the
last underlying message. -/
theorem c2_retry_bound (k : String) (validator : Nat → Nat × Settle) :
    (∀ N, N < 3 →
      (∀ i, 1 ≤ i → i ≤ N → (attemptError (validator i)).isSome) →
      attemptError (validator (N + 1)) = none →
      initGeminiClient (some k) validator =
        (Except.ok (),
         (List.replicate N [InitEvent.validateCall, InitEvent.sleep 2000]).flatten
           ++ [InitEvent.validateCall])) ∧
    (∀ m₁ m₂ m₃, attemptError (validator 1) = some m₁ →
      attemptError (validator 2) = some m₂ →
      attemptError (validator 3) = some m₃ →
      initGeminiClient (some k) validator =
        (Except.error ("Failed to connect to Gemini API after "
          ++ toString maxAttempts ++ " attempts: " ++ m₃),
         [InitEvent.validateCall, InitEvent.sleep 2000, InitEvent.validateCall,
          InitEvent.sleep 2000, InitEvent.validateCall])) ∧
    ((initGeminiClient (some k) validator).2.count InitEvent.validateCall ≤ 3) := by
  have hinit : initGeminiClient (some k) validator = initLoop validator 0 [] := rfl
  refine ⟨?_, ?_, ?_⟩
  · intro N hN hfail hsucc
    interval_cases N
    · rw [hinit, initLoop_succeeds [] (by norm_num [maxAttempts]) hsucc]
      rfl
    · obtain ⟨m, hm⟩ := Option.isSome_iff_exists.mp (hfail 1 (by omega) (by omega))
      rw [hinit, initLoop_fail_retry [] (by norm_num [maxAttempts]) hm,
        initLoop_succeeds _ (by norm_num [maxAttempts]) hsucc]
      rfl
    · obtain ⟨m1, hm1⟩ := Option.isSome_iff_exists.mp (hfail 1 (by omega) (by omega))
      obtain ⟨m2, hm2⟩ := Option.isSome_iff_exists.mp (hfail 2 (by omega) (by omega))
      rw [hinit, initLoop_fail_retry [] (by norm_num [maxAttempts]) hm1,
        initLoop_fail_retry _ (by norm_num [maxAttempts]) hm2,
        initLoop_succeeds _ (by norm_num [maxAttempts]) hsucc]
      rfl
  · intro m₁ m₂ m₃ h1 h2 h3
    rw [hinit, initLoop_fail_retry [] (by norm_num [maxAttempts]) h1,
      initLoop_fail_retry _ (by norm_num [maxAttempts]) h2,
      initLoop_fail_exhaust _ (by norm_num [maxAttempts]) h3]
    rfl
  · rcases h1 : attemptError (validator 1) with _ | m1
    · rw [hinit, initLoop_succeeds [] (by norm_num [maxAttempts]) h1]
      decide
    · rcases h2 : attemptError (validator 2) with _ | m2
      · rw [hinit, initLoop_fail_retry [] (by norm_num [maxAttempts]) h1,
          initLoop_succeeds _ (by norm_num [maxAttempts]) h2]
        decide
      · rcases h3 : attemptError (validator 3) with _ | m3
        · rw [hinit, initLoop_fail_retry [] (by norm_num [maxAttempts]) h1,
            initLoop_fail_retry _ (by norm_num [maxAttempts]) h2,
            initLoop_succeeds _ (by norm_num [maxAttempts]) h3]
          decide
        · rw [hinit, initLoop_fail_retry [] (by norm_num [maxAttempts]) h1,
            initLoop_fail_retry _ (by norm_num [maxAttempts]) h2,
            initLoop_fail_exhaust _ (by norm_num [maxAttempts]) h3]
          simp

/-- A validator that fails once then succeeds (for the C2 witness). -/
def retryOnceValidator : Nat → Nat × Settle := fun i =>
  if i = 1 then (5, Settle.rejected "boom") else (5, Settle.fulfilled true)

/-- A validator that always fails (for the C2 witness). -/
def alwaysFailValidator : Nat → Nat × Settle := fun _ => (5, Settle.rejected "boom")

/-- C2 witness: one failure then success gives 2 calls with one pause;
three failures give the exhaustion error after 3 calls. -/
theorem c2_retry_bound_witness :
    (1 < 3 ∧ attemptError (retryOnceValidator 2) = none ∧
     initGeminiClient (some "key") retryOnceValidator =
       (Except.ok (),
        (List.replicate 1 [InitEvent.validateCall, InitEvent.sleep 2000]).flatten
          ++ [InitEvent.validateCall])) ∧
    (attemptError (alwaysFailValidator 3) = some "boom" ∧
     initGeminiClient (some "key") alwaysFailValidator =
       (Except.error ("Failed to connect to Gemini API after "
         ++ toString maxAttempts ++ " attempts: " ++ "boom"),
        [InitEvent.validateCall, InitEvent.sleep 2000, InitEvent.validateCall,
         InitEvent.sleep 2000, InitEvent.validateCall])) := by
  refine ⟨⟨by omega, rfl, ?_⟩, ⟨rfl, ?_⟩⟩
  · exact (c2_retry_bound "key" retryOnceValidator).1 1 (by omega)
      (fun i h1 h2 => by
        have hi : i = 1 := by omega
        subst hi
        rfl)
      rfl
  · exact (c2_retry_bound "key" alwaysFailValidator).2.1 "boom" "boom" "boom" rfl rfl rfl

/-- C5: each validation attempt races the call against a 10000 ms timeout:
a never-resolving call makes the attempt fail at exactly 10000 ms with the
"Connection timeout" rejection, and whenever the call would settle at or
after the timeout — even as a success — the race yields the timeout
rejection, discarding the call's result. -/
theorem c5_timeout_precedence (t : Nat) (s : Settle) (ht : connectTimeoutMs ≤ t) :
    promiseRace none connectTimeoutMs =
      (connectTimeoutMs, Settle.rejected "Connection timeout") ∧
    attemptError (promiseRace none connectTimeoutMs) = some "Connection timeout" ∧
    promiseRace (some (t, s)) connectTimeoutMs =
      (connectTimeoutMs, Settle.rejected "Connection timeout") ∧
    attemptError (promiseRace (some (t, s)) connectTimeoutMs) = some "Connection timeout" := by
  have hrace : promiseRace (some (t, s)) connectTimeoutMs =
      (connectTimeoutMs, Settle.rejected "Connection timeout") := by
    show (if t < connectTimeoutMs then (t, s)
      else (connectTimeoutMs, Settle.rejected "Connection timeout")) =
      (connectTimeoutMs, Settle.rejected "Connection timeout")
    rw [if_neg (by omega)]
  exact ⟨rfl, rfl, hrace, by rw [hrace]; rfl⟩

/-- C5 witness: a call that would fulfil successfully exactly at the
timeout boundary is discarded. -/
theorem c5_timeout_precedence_witness :
    connectTimeoutMs ≤ 10000 ∧
    (promiseRace none connectTimeoutMs =
       (connectTimeoutMs, Settle.rejected "Connection timeout") ∧
     attemptError (promiseRace none connectTimeoutMs) = some "Connection timeout" ∧
     promiseRace (some (10000, Settle.fulfilled true)) connectTimeoutMs =
       (connectTimeoutMs, Settle.rejected "Connection timeout") ∧
     attemptError (promiseRace (some (10000, Settle.fulfilled true)) connectTimeoutMs) =
       some "Connection timeout") :=
  ⟨by decide, c5_timeout_precedence 10000 (Settle.fulfilled true) (by decide)⟩

/-- C10: when the last message has role "user", `generateWithChat` sends its
content twice: the trace of `sendMessage` contents is the loop's sends (one
per user message, which already include the last message) followed by one
more send of the last message's content. -/
theorem c10_last_user_message_sent_twice (oracle : Nat → String)
    (messages : List ChatMessage) (lastMessage : ChatMessage)
    (hl : messages.getLast? = some lastMessage) (hu : lastMessage.role = Role.user) :
    generateWithChat oracle messages =
      some (oracle ((loopSends messages ++ [lastMessage.content]).length - 1),
        loopSends messages ++ [lastMessage.content]) ∧
    lastMessage.content ∈ loopSends messages := by
  constructor
  · unfold generateWithChat
    rw [hl]
    simp only [if_pos hu]
  · have hmem : lastMessage ∈ messages := by
      cases messages with
      | nil => simp at hl
      | cons x xs =>
        have hgl := List.getLast?_eq_getLast (x :: xs) (by simp)
        rw [hgl] at hl
        cases hl
        exact List.getLast_mem _
    exact List.mem_map_of_mem _ (List.mem_filter.mpr ⟨hmem, by simp [hu]⟩)

/-- C10 witness at a one-message chat. -/
theorem c10_last_user_message_sent_twice_witness :
    ([(⟨Role.user, "hi"⟩ : ChatMessage)].getLast? = some ⟨Role.user, "hi"⟩ ∧
     (⟨Role.user, "hi"⟩ : ChatMessage).role = Role.user) ∧
    (generateWithChat (fun _ => "resp") [⟨Role.user, "hi"⟩] =
       some ((fun _ => "resp") ((loopSends [⟨Role.user, "hi"⟩] ++ ["hi"]).length - 1),
         loopSends [⟨Role.user, "hi"⟩] ++ ["hi"]) ∧
     "hi" ∈ loopSends [(⟨Role.user, "hi"⟩ : ChatMessage)]) :=
  ⟨⟨rfl, rfl⟩,
   c10_last_user_message_sent_twice (fun _ => "resp") [⟨Role.user, "hi"⟩]
     ⟨Role.user, "hi"⟩ rfl rfl⟩

end GeminiMcp
